import Mathlib

/-!
Shallow embedding of the PVPC price endpoints of `src/main.py`
(Spain-Public-Tenders-API) and verification of the specification's claims
about them.

Modelling conventions:
- Python floats are modelled as exact rationals (`ℚ`); `round(x, n)` is
  round-half-to-even at `n` decimal places on the exact value.
- A parsed JSON object is modelled as an association list of its items in
  iteration (= insertion) order; Python `dict` keys are unique.
- Python's `sorted` is a stable sort; any stable sort produces the same
  output, so it is modelled by insertion sort on the "insert strictly
  before the first larger element" relation.
- Python compares strings lexicographically by code point; this is modelled
  by `strLtB` on `String.data`.
- The upstream HTTP fetch is I/O; a handler's body-building is modelled as
  a function of the fetch step's outcome, passed in as an explicit
  argument.  In the shipped module the name `httpx` used at lines 29 and
  100 of `src/main.py` is never imported, so the fetch step raises
  `NameError` on every request and an `.ok` outcome never occurs: the
  request-level behavior of `/today` and `/forecast` is modelled by
  `get_today_prices_shipped` / `get_forecast_shipped`, which resolve the
  name `httpx` first, while the parameterized `get_today_prices` /
  `get_forecast` expose the (dead) success path of lines 105-129 over
  which the operation-level Analytics-Engine claims are stated.
- Module-level name resolution is modelled by membership in the list of
  names actually bound in `src/main.py`, so that references to undefined
  names (`fetch_esios_pvpc`, `calculate_stats`) become explicit `NameError`
  outcomes, as in Python.
-/

/-- Outcomes of a Python handler other than a successfully built response
body: an uncaught `NameError`, an uncaught `TypeError`, an uncaught
`statistics.StatisticsError`, or a deliberately raised
`fastapi.HTTPException` with an HTTP status code and a detail message. -/
inductive PyError where
  | nameError (name : String)
  | typeError (msg : String)
  | statisticsError (msg : String)
  | httpException (status : Nat) (detail : String)
deriving DecidableEq, Repr

/-- Round-half-to-even of a rational to an integer, the rounding mode of
Python's builtin `round` (on the exact value; float representation error is
abstracted away). -/
def halfEven (x : ℚ) : ℤ :=
  let f := ⌊x⌋
  if x - f < 1 / 2 then f
  else if 1 / 2 < x - f then f + 1
  else if f % 2 = 0 then f else f + 1

/-- Python's `round(x, n)`: round-half-to-even at `n` decimal places. -/
def roundTo (n : Nat) (x : ℚ) : ℚ := (halfEven (x * 10 ^ n) : ℚ) / 10 ^ n

/-- One step of Python's builtin `min` over an iterable: keep the current
value unless the next item is strictly smaller. -/
def pyMin2 (acc x : ℚ) : ℚ := if x < acc then x else acc

/-- One step of Python's builtin `max` over an iterable. -/
def pyMax2 (acc x : ℚ) : ℚ := if acc < x then x else acc

/-- The result shape of `calculate_statistics` (src/main.py lines 36-44). -/
structure Stats where
  min : ℚ
  max : ℚ
  avg : ℚ
deriving DecidableEq, Repr

/-- Function `calculate_statistics` (src/main.py lines 36-44): `{min:0,max:0,avg:0}`
for an empty price list, otherwise `min`/`max`/`statistics.mean` of the
prices, each passed through `round(_, 4)`.  `statistics.mean` of a
non-empty list is the exact sum divided by the length. -/
def calculate_statistics : List ℚ → Stats
  | [] => ⟨0, 0, 0⟩
  | a :: t =>
    { min := roundTo 4 (t.foldl pyMin2 a)
    , max := roundTo 4 (t.foldl pyMax2 a)
    , avg := roundTo 4 ((a :: t).sum / ((a :: t).length : ℚ)) }

-- Python string comparison (lexicographic by code point), on `String.data`.
/-- Python's `<` on strings: lexicographic comparison of the code-point
sequences.  `String.data` is the code-point sequence of a Lean string. -/
def strLtB : List Char → List Char → Bool
  | [], [] => false
  | [], _ :: _ => true
  | _ :: _, [] => false
  | a :: as, b :: bs => if a < b then true else if b < a then false else strLtB as bs

/-- Python `a < b` for strings. -/
def pyStrLt (a b : String) : Bool := strLtB a.data b.data

/-- The normalized per-hour record built at src/main.py lines 110-115: the
raw hour label, the price divided by 1000, and the two upstream flags. -/
structure HourEntry where
  hour : String
  price : ℚ
  is_cheap : Bool
  is_under_avg : Bool
deriving DecidableEq, Repr

/-- The `price` field of one raw upstream item, as seen by line 112
(`float(info.get("price", 0))`): missing (`.absent`, defaulted to `0`),
present but not convertible by `float` (`.bad`, which raises
`ValueError`/`TypeError` and makes line 116 skip the item), or a value
`float` accepts (`.num`). -/
inductive PriceField where
  | absent
  | bad
  | num (q : ℚ)
deriving DecidableEq, Repr

/-- One raw upstream item value: its `price` field and the `is-cheap` /
`is-under-avg` flags read with default `False` (lines 112-114). -/
structure RawInfo where
  price : PriceField
  isCheap : Bool
  isUnderAvg : Bool
deriving DecidableEq, Repr

/-- The parsed JSON object returned by the upstream fetch of `/today`
(line 103): its items in iteration order, and the value `data.get("date")`
would see (line 123). -/
structure RawPayload where
  items : List (String × RawInfo)
  dateVal : Option String
deriving DecidableEq, Repr

/-- Step `float(info.get("price", 0))` (line 112): a missing field defaults to
`0`; an unconvertible value raises, which the `except` at line 116 turns
into skipping the item; a convertible value parses exactly. -/
def parsePrice : PriceField → Option ℚ
  | .absent => some 0
  | .bad => none
  | .num q => some q

/-- The normalization loop of src/main.py lines 106-117: iterate over the
payload's items, skip the `"date"` and `"units"` keys, skip items whose
price `float(...)` rejects, and store the raw hour label together with the
price divided by 1000 and the two flags. -/
def normalizeEntries : List (String × RawInfo) → List HourEntry
  | [] => []
  | (hour, info) :: rest =>
    if hour = "date" ∨ hour = "units" then normalizeEntries rest
    else
      match parsePrice info.price with
      | none => normalizeEntries rest
      | some q =>
        { hour := hour, price := q / 1000, is_cheap := info.isCheap
        , is_under_avg := info.isUnderAvg } :: normalizeEntries rest

-- Sort relations used by the handlers (Python `sorted` is stable; a stable
-- sort is modelled by insertion sort inserting strictly before the first
-- larger element, i.e. on the non-strict key comparison).
/-- Key comparison of `sorted(hourly_prices, key=lambda x: x["hour"])`
(line 125): insert before the first entry whose hour label is strictly
larger, i.e. `¬ (b.hour < a.hour)` in Python's string order. -/
def hourKeyLE (a b : HourEntry) : Prop := pyStrLt b.hour a.hour = false

instance : DecidableRel hourKeyLE := fun a b =>
  inferInstanceAs (Decidable (pyStrLt b.hour a.hour = false))

/-- Key comparison of `sorted(..., key=lambda x: x["price"])` (lines 171
and 192). -/
def priceKeyLE (a b : HourEntry) : Prop := a.price ≤ b.price

instance : DecidableRel priceKeyLE := fun a b =>
  inferInstanceAs (Decidable (a.price ≤ b.price))

/-- Strict "earlier hour label" relation between entries. -/
def hourStrictLt (a b : HourEntry) : Prop := pyStrLt a.hour b.hour = true

instance : DecidableRel hourStrictLt := fun a b =>
  inferInstanceAs (Decidable (pyStrLt a.hour b.hour = true))

/-- Ascending (price, hour) lexicographic order — the order the spec's
`rankedCheapest` describes: ascending by price, ties broken by ascending
hour.  Stated from the spec's words, to be compared with the code's
stable-sort construction. -/
def lexPriceHour (a b : HourEntry) : Prop :=
  a.price < b.price ∨ (a.price = b.price ∧ pyStrLt b.hour a.hour = false)

instance : DecidableRel lexPriceHour := fun a b =>
  inferInstanceAs (Decidable (a.price < b.price ∨ (a.price = b.price ∧ pyStrLt b.hour a.hour = false)))

/-- The response body of `/today` (src/main.py lines 122-129). -/
structure TodayBody where
  date : String
  zone : String
  hourly_prices : List HourEntry
  statistics : Stats
  total_hours : Nat
  source : String
deriving DecidableEq, Repr

/-- The URL requested by `/today` (line 99). -/
def todayUrl (zone : String) : String :=
  "https://api.preciodelaluz.org/v1/prices/all?zone=" ++ zone

/-- The response body `/today` builds from a successfully fetched payload
(src/main.py lines 105-129): normalized entries, statistics over the
unsorted price list, the hour-label-sorted entry list, and the entry
count. -/
def todayBody (zone : String) (data : RawPayload) (nowDate : String) : TodayBody :=
  let hourly_prices := normalizeEntries data.items
  let prices := hourly_prices.map (·.price)
  let stats := calculate_statistics prices
  { date := data.dateVal.getD nowDate
  , zone := zone
  , hourly_prices := List.insertionSort hourKeyLE hourly_prices
  , statistics := stats
  , total_hours := hourly_prices.length
  , source := "REE oficial" }

/-- Body of the `GET /today` handler (src/main.py lines 95-131) as a
function of the outcome of its fetch step (lines 99-103): on `.error e`
(the fetch step raised with message `e`) lines 130-131 answer HTTP 503
with detail `"Error: " ++ str(e)`; on `.ok data` the body-building code of
lines 105-129 is total and always reaches the `return`.  Note that in the
shipped module the `.ok` outcome never occurs — line 100 resolves the
unbound global `httpx` and raises `NameError` before any I/O, so the
success path of lines 105-129 is dead code; the endpoint's actual
request-level behavior is `get_today_prices_shipped` below.  This
parameterized form models the handler's body-building computation, over
which the Analytics-Engine claims are stated. -/
def get_today_prices (zone : String) (fetch : Except String RawPayload)
    (nowDate : String) : Except PyError TodayBody :=
  match fetch with
  | .error e => .error (.httpException 503 ("Error: " ++ e))
  | .ok data => .ok (todayBody zone data nowDate)

-- `/forecast` (src/main.py lines 133-163).
/-- Python `statistics.mean`: raises `StatisticsError` on an empty list, otherwise
the exact sum divided by the length. -/
def pyMean (l : List ℚ) : Except PyError ℚ :=
  match l with
  | [] => .error (.statisticsError "mean requires at least one data point")
  | _ => .ok (l.sum / (l.length : ℚ))

/-- A single digit character, for `f"{n:02d}"` formatting. -/
def digitChar : Nat → Char
  | 0 => '0' | 1 => '1' | 2 => '2' | 3 => '3' | 4 => '4'
  | 5 => '5' | 6 => '6' | 7 => '7' | 8 => '8' | _ => '9'

/-- Python's `f"{n:02d}"` for `n < 100` (the only range the handlers use:
hour values are at most 24): two digits, zero-padded. -/
def pad2 (n : Nat) : String := String.mk [digitChar (n / 10 % 10), digitChar (n % 10)]

/-- One forecast slot built at src/main.py lines 150-155. -/
structure ForecastSlot where
  hour : String
  predicted_price : ℚ
  confidence : String
  note : String
deriving DecidableEq, Repr

/-- The response body of `/forecast` (src/main.py lines 157-163). -/
structure ForecastBody where
  zone : String
  forecast_from : String
  method : String
  predictions : List ForecastSlot
  disclaimer : String
deriving DecidableEq, Repr

/-- The forecast slot for loop index `i` (lines 148-155): target hour
`(current_hour + i) % 24`, labelled `"{h:02d}:00-{h+1:02d}:00"` (the second
hour is not reduced mod 24), and the shared baseline price. -/
def forecastSlot (current_hour i : Nat) (recent_avg : ℚ) : ForecastSlot :=
  let forecast_hour := (current_hour + i) % 24
  { hour := pad2 forecast_hour ++ ":00-" ++ pad2 (forecast_hour + 1) ++ ":00"
  , predicted_price := recent_avg
  , confidence := "low"
  , note := "Predicción basada en media móvil 6h" }

/-- Body of the `GET /forecast` handler (src/main.py lines 133-163) as a
function of the fetch step's outcome: awaits `get_today_prices` (an
`HTTPException` raised there propagates), reads the prices out of the
hour-sorted `hourly_prices`, takes `round(mean(prices[-6:]), 4)` when at
least 6 prices exist and `round(mean(prices), 4)` otherwise, and emits six
identical predictions for the next six hours.  `datetime.now()` is passed
in as the current hour and the two timestamp strings.  As with
`get_today_prices`, the `.ok` fetch outcome never occurs in the shipped
module (unbound `httpx`); the endpoint's request-level behavior is
`get_forecast_shipped` below, and this form models the forecast
computation of lines 137-155 the C9 claim is about. -/
def get_forecast (zone : String) (fetch : Except String RawPayload)
    (nowDate nowIso : String) (current_hour : Nat) : Except PyError ForecastBody :=
  match get_today_prices zone fetch nowDate with
  | .error e => .error e
  | .ok today_data =>
    let prices := today_data.hourly_prices.map (·.price)
    match
      (if 6 ≤ prices.length then
        (pyMean (prices.drop (prices.length - 6))).map (roundTo 4)
      else
        (pyMean prices).map (roundTo 4)) with
    | .error e => .error e
    | .ok recent_avg =>
      .ok
        { zone := zone
        , forecast_from := nowIso
        , method := "Moving average 6h"
        , predictions := (List.range 6).map (fun j => forecastSlot current_hour (j + 1) recent_avg)
        , disclaimer := "Predicción simple, no garantizada" }

-- The endpoints that reference undefined names or forget to await.
/-- The names bound at module level in `src/main.py`: imports (lines 1-7)
and module-level definitions (lines 9, 23, 25, 36, 46, 65, 95, 133, 165,
185).  `httpx`, `fetch_esios_pvpc` and `calculate_stats` are referenced in
the file but never bound. -/
def mainModuleGlobals : List String :=
  ["FastAPI", "HTTPException", "CORSMiddleware", "requests", "uvicorn",
   "datetime", "date", "timedelta", "mean", "Dict", "List",
   "app", "BASE_URL", "fetch_pvpc_data", "calculate_statistics", "root",
   "get_current_price", "get_today_prices", "get_forecast",
   "get_statistics", "get_cheapest_hours"]

/-- Resolution of a global name in `src/main.py`: a name that is not bound
at module level (nor a builtin — none of the names resolved through this
function is one) raises `NameError`. -/
def resolveName (n : String) : Except PyError Unit :=
  if n ∈ mainModuleGlobals then .ok () else .error (.nameError n)

/-- Python `str(e)` for the exception values this module raises: a
`NameError` prints `name 'x' is not defined`; the other constructors carry
their message or detail directly. -/
def pyStr : PyError → String
  | .nameError n => "name '" ++ n ++ "' is not defined"
  | .typeError msg => msg
  | .statisticsError msg => msg
  | .httpException _ detail => detail

/-- Handler of `GET /today` as shipped (src/main.py lines 95-131): the try
block's fetch step begins at line 100 by resolving the global name
`httpx`, which is bound nowhere in the module, so it raises `NameError`
before any request is made, and lines 130-131 answer HTTP 503 with detail
`"Error: " ++ str(e)` — for every request, whatever the zone and whatever
the upstream would have returned.  Only if the lookup succeeded (it never
does) would the transport outcome `fetch` and the body-building of lines
103-129 (`get_today_prices`) decide the response. -/
def get_today_prices_shipped (zone : String) (fetch : Except String RawPayload)
    (nowDate : String) : Except PyError TodayBody :=
  match resolveName "httpx" with
  | .error e => .error (.httpException 503 ("Error: " ++ pyStr e))
  | .ok _ => get_today_prices zone fetch nowDate

/-- Handler of `GET /forecast` as shipped (src/main.py lines 133-163):
line 136 awaits `get_today_prices`, whose fetch step in the shipped module
raises the `httpx` `NameError`, converted by lines 130-131 into the HTTP
503 that propagates out of `get_forecast` unchanged — for every request.
Only if the lookup succeeded would the forecast computation
(`get_forecast`) run on the fetch outcome. -/
def get_forecast_shipped (zone : String) (fetch : Except String RawPayload)
    (nowDate nowIso : String) (current_hour : Nat) : Except PyError ForecastBody :=
  match resolveName "httpx" with
  | .error e => .error (.httpException 503 ("Error: " ++ pyStr e))
  | .ok _ => get_forecast zone fetch nowDate nowIso current_hour

/-- The `TypeError` raised by subscripting the coroutine object that a call
to the `async def get_today_prices` returns when it is not awaited. -/
def coroutineSubscriptError : PyError :=
  .typeError "'coroutine' object is not subscriptable"

/-- The response body of `/now` (src/main.py lines 81-93) — never actually
built, see `get_current_price`. -/
structure NowBody where
  timestamp : String
  date : String
  zone : String
  hour : String
  price_kwh : ℚ
  unit : String
  is_cheap : Bool
  is_lowest : Bool
  is_highest : Bool
  avg_day : ℚ
  source : String
deriving DecidableEq, Repr

/-- Handler of `GET /now` (src/main.py lines 65-93).  Line 69 evaluates
`fetch_esios_pvpc(today, zone)`; the name `fetch_esios_pvpc` is bound
nowhere in the module, so the lookup raises `NameError` and the handler
never gets further.  (Lines 71-93 are unreachable: they depend on the
fetch result that does not exist.  Had line 69 succeeded, line 79 would
next fail the same way on the unbound name `calculate_stats`; that is the
error recorded for the unreachable branch.) -/
def get_current_price (zone : String) : Except PyError NowBody :=
  match resolveName "fetch_esios_pvpc" with
  | .error e => .error e
  | .ok _ => .error (.nameError "calculate_stats")

/-- The response body of `/stats` (src/main.py lines 176-183) — never
actually built, see `get_statistics`. -/
structure StatsBody where
  date : String
  zone : String
  statistics : Stats
  cheapest_hours : List HourEntry
  most_expensive_hours : List HourEntry
  recommendation : String
deriving DecidableEq, Repr

/-- Handler of `GET /stats` (src/main.py lines 165-183).  Line 168 calls
the `async def get_today_prices` without `await` from a plain `def`: the
call builds a coroutine object without running any of its body (so no
fetch is attempted).  Line 170 then subscripts that coroutine object with
`"hourly_prices"`, raising `TypeError` for every input. -/
def get_statistics (zone : String) : Except PyError StatsBody :=
  .error coroutineSubscriptError

/-- The response body of `/cheapest` (src/main.py lines 194-199) — never
actually built, see `get_cheapest_hours`. -/
structure CheapestBody where
  date : String
  zone : String
  cheapest_hours : List HourEntry
  avg_price_day : ℚ
deriving DecidableEq, Repr

/-- Handler of `GET /cheapest` (src/main.py lines 185-199).  Lines 188-189
validate `limit` first and raise HTTP 400 when it is outside `[1, 24]`.
Otherwise line 191 calls the `async def get_today_prices` without `await`
(building a coroutine, attempting no fetch) and line 192 subscripts the
coroutine, raising `TypeError` — so no in-range request ever reaches the
`return` at lines 194-199. -/
def get_cheapest_hours (zone : String) (limit : Int) : Except PyError CheapestBody :=
  if limit < 1 ∨ 24 < limit then
    .error (.httpException 400 "limit debe estar entre 1 y 24")
  else
    .error coroutineSubscriptError

-- The ranking expressions over an in-memory series.
/-- The ranking expression of src/main.py lines 192 and 197,
`sorted(series, key=lambda x: x["price"])[:limit]`, as a function of the
series it is applied to. -/
def rankedCheapest (series : List HourEntry) (limit : Nat) : List HourEntry :=
  (List.insertionSort priceKeyLE series).take limit

/-- The expression of src/main.py lines 171-174:
`sorted(series, key=lambda x: x["price"])[-5:][::-1]` — the last five
entries of the ascending stable sort, reversed. -/
def rankedMostExpensive (series : List HourEntry) : List HourEntry :=
  let sorted_hours := List.insertionSort priceKeyLE series
  (sorted_hours.drop (sorted_hours.length - 5)).reverse

/-- Expression `cheapest_5` of `/stats` (line 173). -/
def cheapestFive (series : List HourEntry) : List HourEntry :=
  (List.insertionSort priceKeyLE series).take 5

-- Shape lemmas for the normalizer.
/-- Whether the normalization loop keeps an item: its key is not `"date"`
or `"units"` and its price parses. -/
def keptItem (p : String × RawInfo) : Prop :=
  ¬(p.1 = "date" ∨ p.1 = "units") ∧ (parsePrice p.2.price).isSome

instance : DecidablePred keptItem := fun p =>
  inferInstanceAs (Decidable (¬(p.1 = "date" ∨ p.1 = "units") ∧ (parsePrice p.2.price).isSome))

/-- The entry built from a kept item. -/
def entryOfItem (p : String × RawInfo) : HourEntry :=
  { hour := p.1, price := ((parsePrice p.2.price).getD 0) / 1000
  , is_cheap := p.2.isCheap, is_under_avg := p.2.isUnderAvg }

/-- The 24 hour-range labels of a full upstream day. -/
def labels24 : List String :=
  ["00-01", "01-02", "02-03", "03-04", "04-05", "05-06", "06-07", "07-08",
   "08-09", "09-10", "10-11", "11-12", "12-13", "13-14", "14-15", "15-16",
   "16-17", "17-18", "18-19", "19-20", "20-21", "21-22", "22-23", "23-24"]

/-- The spec's tie-break example series: hours 0-3 priced
0.10, 0.05, 0.05, 0.20 (hours 1 and 2 tie at the minimum). -/
def exSeries4 : List HourEntry :=
  [⟨"00", 1/10, false, false⟩, ⟨"01", 1/20, false, false⟩,
   ⟨"02", 1/20, false, false⟩, ⟨"03", 1/5, false, false⟩]

/-- A two-entry series with one price shared by both hours. -/
def exSeriesTie : List HourEntry :=
  [⟨"00", 1/10, false, false⟩, ⟨"01", 1/10, false, false⟩]

/-- The value `recent_avg` computed at src/main.py lines 141-145, as a
function of the fetched payload: the mean of the last six prices of the
hour-sorted series when at least six exist, the mean of all prices
otherwise, rounded to 4 decimal places. -/
def recentAvgOf (data : RawPayload) : ℚ :=
  let prices := (List.insertionSort hourKeyLE (normalizeEntries data.items)).map (·.price)
  if 6 ≤ prices.length then
    roundTo 4 ((prices.drop (prices.length - 6)).sum
      / (((prices.drop (prices.length - 6)).length : ℚ)))
  else
    roundTo 4 (prices.sum / (prices.length : ℚ))

/-- A payload with three hours priced 100, 200, 300 currency/MWh
(0.10, 0.20, 0.30 after normalization) — the spec's forecast example. -/
def payload3 : RawPayload :=
  ⟨[("00", ⟨.num 100, false, false⟩), ("01", ⟨.num 200, false, false⟩),
    ("02", ⟨.num 300, false, false⟩)], none⟩

/-- Like `payload3` but priced 100, 200, 400 currency/MWh, whose mean
0.2333... is changed by the 4-place rounding. -/
def payload3c : RawPayload :=
  ⟨[("00", ⟨.num 100, false, false⟩), ("01", ⟨.num 200, false, false⟩),
    ("02", ⟨.num 400, false, false⟩)], none⟩

-- ----------------------------------------------------------------------
-- Theorems
-- ----------------------------------------------------------------------

-- Evaluation helpers for `roundTo` on concrete rationals.
theorem halfEven_of_lt {x : ℚ} {f : ℤ} (h1 : (f : ℚ) ≤ x) (h2 : x - f < 1 / 2) :
    halfEven x = f := by
  have hf : ⌊x⌋ = f := Int.floor_eq_iff.mpr ⟨h1, by linarith⟩
  simp only [halfEven, hf]
  rw [if_pos h2]

theorem halfEven_of_gt {x : ℚ} {f : ℤ} (h1 : (f : ℚ) ≤ x) (h2 : x - f < 1)
    (h3 : 1 / 2 < x - f) : halfEven x = f + 1 := by
  have hf : ⌊x⌋ = f := Int.floor_eq_iff.mpr ⟨h1, by linarith⟩
  simp only [halfEven, hf]
  rw [if_neg (by linarith), if_pos h3]

theorem roundTo_of_lt (n : Nat) {x : ℚ} {f : ℤ} (h1 : (f : ℚ) ≤ x * 10 ^ n)
    (h2 : x * 10 ^ n - f < 1 / 2) : roundTo n x = (f : ℚ) / 10 ^ n := by
  rw [roundTo, halfEven_of_lt h1 h2]

theorem roundTo_of_gt (n : Nat) {x : ℚ} {f : ℤ} (h1 : (f : ℚ) ≤ x * 10 ^ n)
    (h2 : x * 10 ^ n - f < 1) (h3 : 1 / 2 < x * 10 ^ n - f) :
    roundTo n x = ((f : ℚ) + 1) / 10 ^ n := by
  rw [roundTo, halfEven_of_gt h1 h2 h3]
  push_cast
  ring

theorem strLtB_irrefl : ∀ l : List Char, strLtB l l = false
  | [] => rfl
  | a :: as => by simp [strLtB, strLtB_irrefl as]

theorem strLtB_asymm : ∀ {l m : List Char}, strLtB l m = true → strLtB m l = false
  | [], [], h => by simp [strLtB] at h
  | [], _ :: _, _ => rfl
  | _ :: _, [], h => by simp [strLtB] at h
  | a :: as, b :: bs, h => by
    by_cases hab : a < b
    · have hba : ¬ b < a := lt_asymm hab
      simp [strLtB, hba, hab]
    · by_cases hba : b < a
      · simp [strLtB, hab, hba] at h
      · simp only [strLtB, if_neg hab, if_neg hba] at h
        simp [strLtB, hab, hba, strLtB_asymm h]

-- Stable sort versus lexicographic sort.
theorem orderedInsert_congr {α : Type} {r s : α → α → Prop} [DecidableRel r]
    [DecidableRel s] (a : α) :
    ∀ l : List α, (∀ b ∈ l, (r a b ↔ s a b)) →
      l.orderedInsert r a = l.orderedInsert s a
  | [], _ => rfl
  | b :: t, h => by
    by_cases hr : r a b
    · rw [List.orderedInsert, List.orderedInsert, if_pos hr,
        if_pos ((h b (List.mem_cons_self b t)).mp hr)]
    · rw [List.orderedInsert, List.orderedInsert, if_neg hr,
        if_neg (fun hs => hr ((h b (List.mem_cons_self b t)).mpr hs)),
        orderedInsert_congr a t (fun c hc => h c (List.mem_cons_of_mem b hc))]

theorem insertionSort_congr_of_pairwise {α : Type} {r s p : α → α → Prop}
    [DecidableRel r] [DecidableRel s]
    (hagree : ∀ a b, p a b → (r a b ↔ s a b)) :
    ∀ l : List α, l.Pairwise p →
      List.insertionSort r l = List.insertionSort s l
  | [], _ => rfl
  | a :: t, hp => by
    have ht : t.Pairwise p := (List.pairwise_cons.mp hp).2
    have ha : ∀ b ∈ t, p a b := (List.pairwise_cons.mp hp).1
    have step : List.insertionSort r (a :: t)
        = (List.insertionSort r t).orderedInsert r a := rfl
    have step' : List.insertionSort s (a :: t)
        = (List.insertionSort s t).orderedInsert s a := rfl
    rw [step, step', insertionSort_congr_of_pairwise hagree t ht]
    exact orderedInsert_congr a (List.insertionSort s t) fun b hb =>
      hagree a b (ha b ((List.mem_insertionSort s).mp hb))

/-- On entries with strictly ascending hour labels, the price comparison
used by the stable sort agrees with the ascending (price, hour)
lexicographic order. -/
theorem priceKeyLE_iff_lexPriceHour {a b : HourEntry} (h : hourStrictLt a b) :
    priceKeyLE a b ↔ lexPriceHour a b := by
  unfold hourStrictLt pyStrLt at h
  constructor
  · intro hle
    rcases lt_or_eq_of_le hle with hlt | heq
    · exact Or.inl hlt
    · exact Or.inr ⟨heq, strLtB_asymm h⟩
  · rintro (hlt | ⟨heq, _⟩)
    · exact le_of_lt hlt
    · exact le_of_eq heq

/-- Over a series whose hour labels are strictly ascending (the shape of
the canonical series `/today` builds at line 125, since `dict` keys are
unique), the stable sort by price equals the insertion sort by the
ascending (price, hour) lexicographic order. -/
theorem stableSortByPrice_eq_lex {l : List HourEntry} (h : l.Pairwise hourStrictLt) :
    List.insertionSort priceKeyLE l = List.insertionSort lexPriceHour l :=
  insertionSort_congr_of_pairwise (fun _ _ hp => priceKeyLE_iff_lexPriceHour hp) l h

/-- The normalization loop keeps exactly the items with a good key and a
parseable price, in order, and maps each to `entryOfItem`: the raw hour
label is carried over verbatim and the price is the parsed value divided
by 1000 (with no further rounding). -/
theorem normalizeEntries_eq_map_filter :
    ∀ items : List (String × RawInfo),
      normalizeEntries items = (items.filter fun p => decide (keptItem p)).map entryOfItem
  | [] => rfl
  | (hour, info) :: rest => by
    by_cases hk : hour = "date" ∨ hour = "units"
    · have : ¬ keptItem (hour, info) := fun hc => hc.1 hk
      rw [normalizeEntries, if_pos hk, List.filter_cons,
        if_neg (by simpa using this), normalizeEntries_eq_map_filter rest]
    · cases hq : parsePrice info.price with
      | none =>
        have : ¬ keptItem (hour, info) := fun hc => by
          have := hc.2; rw [hq] at this; simp at this
        rw [normalizeEntries, if_neg hk]
        rw [hq, List.filter_cons, if_neg (by simpa using this),
          normalizeEntries_eq_map_filter rest]
      | some q =>
        have hkept : keptItem (hour, info) := ⟨hk, by rw [hq]; simp⟩
        rw [normalizeEntries, if_neg hk]
        rw [hq, List.filter_cons, if_pos (by simpa using hkept),
          List.map_cons, normalizeEntries_eq_map_filter rest]
        simp [entryOfItem, hq]

/-- Hour labels pass through normalization unchanged. -/
theorem normalizeEntries_hours (items : List (String × RawInfo)) :
    (normalizeEntries items).map (·.hour)
      = ((items.filter fun p => decide (keptItem p)).map (·.1)) := by
  rw [normalizeEntries_eq_map_filter, List.map_map]
  rfl

/-- Over a payload all of whose items have a good key and a numeric price,
normalization is exactly "divide each price by 1000", keeping every item. -/
theorem normalizeEntries_all_good (items : List (String × RawInfo))
    (h : ∀ p ∈ items, keptItem p) :
    normalizeEntries items = items.map entryOfItem := by
  rw [normalizeEntries_eq_map_filter, List.filter_eq_self.mpr]
  intro p hp
  simpa using h p hp

-- Python `min`/`max` over a non-empty list.
theorem pyMin2_le_left (a b : ℚ) : pyMin2 a b ≤ a := by
  unfold pyMin2; split <;> linarith

theorem pyMin2_le_right (a b : ℚ) : pyMin2 a b ≤ b := by
  unfold pyMin2; split <;> linarith

theorem le_pyMax2_left (a b : ℚ) : a ≤ pyMax2 a b := by
  unfold pyMax2; split <;> linarith

theorem le_pyMax2_right (a b : ℚ) : b ≤ pyMax2 a b := by
  unfold pyMax2; split <;> linarith

theorem foldl_pyMin2_mem : ∀ (t : List ℚ) (a : ℚ), t.foldl pyMin2 a ∈ a :: t
  | [], a => by simp
  | b :: t, a => by
    rw [List.foldl_cons]
    have ih := foldl_pyMin2_mem t (pyMin2 a b)
    have hab : pyMin2 a b = a ∨ pyMin2 a b = b := by unfold pyMin2; split <;> simp
    rcases List.mem_cons.mp ih with h1 | h1
    · rw [h1]
      rcases hab with h2 | h2 <;> rw [h2] <;> simp
    · exact List.mem_cons.mpr (Or.inr (List.mem_cons.mpr (Or.inr h1)))

theorem foldl_pyMin2_le : ∀ (t : List ℚ) (a : ℚ), ∀ x ∈ a :: t, t.foldl pyMin2 a ≤ x
  | [], a, x, hx => by simp at hx; simp [hx, List.foldl]
  | b :: t, a, x, hx => by
    rw [List.foldl_cons]
    rcases List.mem_cons.mp hx with h1 | h1
    · subst h1
      exact le_trans (foldl_pyMin2_le t (pyMin2 x b) _ (List.mem_cons_self _ t))
        (pyMin2_le_left x b)
    · rcases List.mem_cons.mp h1 with h2 | h2
      · subst h2
        exact le_trans (foldl_pyMin2_le t (pyMin2 a x) _ (List.mem_cons_self _ t))
          (pyMin2_le_right a x)
      · exact foldl_pyMin2_le t (pyMin2 a b) x (List.mem_cons_of_mem _ h2)

theorem foldl_pyMax2_mem : ∀ (t : List ℚ) (a : ℚ), t.foldl pyMax2 a ∈ a :: t
  | [], a => by simp
  | b :: t, a => by
    rw [List.foldl_cons]
    have ih := foldl_pyMax2_mem t (pyMax2 a b)
    have hab : pyMax2 a b = a ∨ pyMax2 a b = b := by unfold pyMax2; split <;> simp
    rcases List.mem_cons.mp ih with h1 | h1
    · rw [h1]
      rcases hab with h2 | h2 <;> rw [h2] <;> simp
    · exact List.mem_cons.mpr (Or.inr (List.mem_cons.mpr (Or.inr h1)))

theorem le_foldl_pyMax2 : ∀ (t : List ℚ) (a : ℚ), ∀ x ∈ a :: t, x ≤ t.foldl pyMax2 a
  | [], a, x, hx => by simp at hx; simp [hx, List.foldl]
  | b :: t, a, x, hx => by
    rw [List.foldl_cons]
    rcases List.mem_cons.mp hx with h1 | h1
    · subst h1
      exact le_trans (le_pyMax2_left x b)
        (le_foldl_pyMax2 t (pyMax2 x b) _ (List.mem_cons_self _ t))
    · rcases List.mem_cons.mp h1 with h2 | h2
      · subst h2
        exact le_trans (le_pyMax2_right a x)
          (le_foldl_pyMax2 t (pyMax2 a x) _ (List.mem_cons_self _ t))
      · exact le_foldl_pyMax2 t (pyMax2 a b) x (List.mem_cons_of_mem _ h2)

-- ----------------------------------------------------------------------
-- Claims
-- ----------------------------------------------------------------------
/-- C1 (corrected): no request ever reaches normalization — line 100's
unbound `httpx` makes the fetch step raise `NameError` inside the `try`,
so `/today` answers 503 with the transport-failure detail
`"Error: name 'httpx' is not defined"` on every request, and `/forecast`
propagates that same 503 on every request; `/now` raises an uncaught
`NameError`, and `/stats` and in-range `/cheapest` an uncaught
`TypeError` (internal errors, not 503s).  No endpoint signals a distinct
`NoDataAvailable` condition, and no endpoint ever returns a success body,
zero-filled or otherwise. -/
theorem c1_no_endpoint_signals_nodata :
    "httpx" ∉ mainModuleGlobals ∧
    (∀ (zone : String) (fetch : Except String RawPayload) (nowDate : String),
      get_today_prices_shipped zone fetch nowDate
        = .error (.httpException 503 "Error: name 'httpx' is not defined")) ∧
    (∀ (zone : String) (fetch : Except String RawPayload) (nowDate nowIso : String)
        (current_hour : Nat),
      get_forecast_shipped zone fetch nowDate nowIso current_hour
        = .error (.httpException 503 "Error: name 'httpx' is not defined")) ∧
    (∀ zone, get_current_price zone = .error (.nameError "fetch_esios_pvpc")) ∧
    (∀ zone, get_statistics zone = .error coroutineSubscriptError) ∧
    (∀ (zone : String) (limit : Int), 1 ≤ limit → limit ≤ 24 →
      get_cheapest_hours zone limit = .error coroutineSubscriptError) := by
  refine ⟨by decide, fun zone fetch nowDate => rfl,
    fun zone fetch nowDate nowIso current_hour => rfl,
    fun zone => rfl, fun zone => rfl, ?_⟩
  intro zone limit h1 h2
  rw [get_cheapest_hours, if_neg (by omega)]

/-- C1 witness: concrete requests — `/today` and `/forecast` answer the
generic 503 even when the upstream would have returned zero entries, and
`/cheapest` with the in-range limit 3 raises the coroutine `TypeError`. -/
theorem c1_no_endpoint_signals_nodata_w :
    get_today_prices_shipped "PCB" (.ok ⟨[], none⟩) "2026-02-03"
        = .error (.httpException 503 "Error: name 'httpx' is not defined") ∧
    get_forecast_shipped "PCB" (.ok ⟨[], none⟩) "2026-02-03" "iso" 7
        = .error (.httpException 503 "Error: name 'httpx' is not defined") ∧
    get_cheapest_hours "PCB" 3 = .error coroutineSubscriptError :=
  ⟨c1_no_endpoint_signals_nodata.2.1 "PCB" (.ok ⟨[], none⟩) "2026-02-03",
   c1_no_endpoint_signals_nodata.2.2.1 "PCB" (.ok ⟨[], none⟩) "2026-02-03" "iso" 7,
   c1_no_endpoint_signals_nodata.2.2.2.2.2 "PCB" 3 (by norm_num) (by norm_num)⟩

/-- C1 counterexample: a `/today` request whose upstream would have
published zero entries does not get a `NoDataAvailable` report — it gets
the identical transport-failure 503 that a request whose upstream has
published entries gets (no distinct condition exists), and `/now` raises a
`NameError` rather than any 503. -/
theorem c1_no_endpoint_signals_nodata_cex :
    get_today_prices_shipped "PCB" (.ok ⟨[], none⟩) "2026-02-03"
        = .error (.httpException 503 "Error: name 'httpx' is not defined") ∧
    get_today_prices_shipped "PCB" (.ok ⟨[], none⟩) "2026-02-03"
        = get_today_prices_shipped "PCB" (.ok payload3) "2026-02-03" ∧
    get_current_price "PCB" = .error (.nameError "fetch_esios_pvpc") :=
  ⟨rfl, rfl, rfl⟩

/-- C2 (confirmed): `/now` always raises `NameError` on the unbound
`fetch_esios_pvpc` (and `calculate_stats` is unbound too); `/stats` always
raises `TypeError` by subscripting the un-awaited coroutine returned by
`get_today_prices`; `/cheapest` does the same for every in-range limit;
only its out-of-range-limit branch (HTTP 400) is reachable. -/
theorem c2_endpoints_raise_internal_errors :
    ("fetch_esios_pvpc" ∉ mainModuleGlobals ∧ "calculate_stats" ∉ mainModuleGlobals) ∧
    (∀ zone, get_current_price zone = .error (.nameError "fetch_esios_pvpc")) ∧
    (∀ zone, get_statistics zone = .error coroutineSubscriptError) ∧
    (∀ zone (limit : Int), 1 ≤ limit → limit ≤ 24 →
      get_cheapest_hours zone limit = .error coroutineSubscriptError) ∧
    (∀ zone (limit : Int), limit < 1 ∨ 24 < limit →
      get_cheapest_hours zone limit
        = .error (.httpException 400 "limit debe estar entre 1 y 24")) := by
  refine ⟨⟨by decide, by decide⟩, fun zone => rfl, fun zone => rfl, ?_, ?_⟩
  · intro zone limit h1 h2
    rw [get_cheapest_hours, if_neg (by omega)]
  · intro zone limit h
    rw [get_cheapest_hours, if_pos h]

/-- C2 witness: concrete inputs for the hypotheses — limit 5 (in range)
raises the coroutine `TypeError`, limit 0 gets the 400. -/
theorem c2_endpoints_raise_internal_errors_w :
    get_cheapest_hours "pcb" 5 = .error coroutineSubscriptError ∧
    get_cheapest_hours "pcb" 0
      = .error (.httpException 400 "limit debe estar entre 1 y 24") :=
  ⟨c2_endpoints_raise_internal_errors.2.2.2.1 "pcb" 5 (by norm_num) (by norm_num),
   c2_endpoints_raise_internal_errors.2.2.2.2 "pcb" 0 (Or.inl (by norm_num))⟩

/-- C3 (corrected): the zone parameter is never validated, case-normalized
or mapped — no `InvalidZone` 400 path exists in any handler.  In `/today`
the zone is only interpolated verbatim into the URL string of line 99; the
unbound `httpx` lookup then fails the request, so every zone value —
`"xyz"` and `"pcb"` alike — receives the identical generic 503, and no
response ever echoes or canonicalizes a zone. -/
theorem c3_zone_never_validated_no_400 :
    (∀ zone, todayUrl zone = "https://api.preciodelaluz.org/v1/prices/all?zone=" ++ zone) ∧
    (∀ (zone : String) (fetch : Except String RawPayload) (nowDate : String),
      get_today_prices_shipped zone fetch nowDate
        = .error (.httpException 503 "Error: name 'httpx' is not defined")) :=
  ⟨fun _ => rfl, fun _ _ _ => rfl⟩

/-- C3 counterexample: the unrecognized zone `"xyz"` is not rejected with
a 400 naming the accepted set — it receives the same generic 503 as the
recognized `"pcb"` (the two are indistinguishable in the response), after
line 99 embedded `"xyz"` verbatim in the URL. -/
theorem c3_zone_never_validated_no_400_cex :
    get_today_prices_shipped "xyz" (.ok ⟨[], none⟩) "d"
        = .error (.httpException 503 "Error: name 'httpx' is not defined") ∧
    get_today_prices_shipped "xyz" (.ok ⟨[], none⟩) "d"
        = get_today_prices_shipped "pcb" (.ok ⟨[], none⟩) "d" ∧
    todayUrl "xyz" = "https://api.preciodelaluz.org/v1/prices/all?zone=xyz" :=
  ⟨rfl, rfl, rfl⟩

/-- C8 (corrected): a limit outside `[1,24]` is rejected with HTTP 400
before anything else happens (no fetch is ever attempted by this handler),
but an in-range limit — `24` included — does NOT succeed: the handler
raises `TypeError` on the un-awaited coroutine. -/
theorem c8_cheapest_limit_validation :
    ∀ zone (limit : Int),
      (limit < 1 ∨ 24 < limit →
        get_cheapest_hours zone limit
          = .error (.httpException 400 "limit debe estar entre 1 y 24")) ∧
      (1 ≤ limit → limit ≤ 24 →
        get_cheapest_hours zone limit = .error coroutineSubscriptError) := by
  intro zone limit
  constructor
  · intro h
    rw [get_cheapest_hours, if_pos h]
  · intro h1 h2
    rw [get_cheapest_hours, if_neg (by omega)]

/-- C8 witness: `limit=0` and `limit=25` get the 400; `limit=24` raises
the coroutine `TypeError` instead of succeeding. -/
theorem c8_cheapest_limit_validation_w :
    get_cheapest_hours "cm" 0
        = .error (.httpException 400 "limit debe estar entre 1 y 24") ∧
    get_cheapest_hours "cm" 25
        = .error (.httpException 400 "limit debe estar entre 1 y 24") ∧
    get_cheapest_hours "cm" 24 = .error coroutineSubscriptError :=
  ⟨(c8_cheapest_limit_validation "cm" 0).1 (Or.inl (by norm_num)),
   (c8_cheapest_limit_validation "cm" 25).1 (Or.inr (by norm_num)),
   (c8_cheapest_limit_validation "cm" 24).2 (by norm_num) (by norm_num)⟩

/-- C8 counterexample: the claim says `limit=24` succeeds and returns the
full ranked series; in fact the handler raises `TypeError` (the un-awaited
coroutine of line 191) and returns no success body. -/
theorem c8_cheapest_limit_validation_cex :
    get_cheapest_hours "pcb" 24 = .error coroutineSubscriptError := rfl

/-- C10 (confirmed): `calculate_statistics` returns the zero-filled
default on the empty list without raising, and otherwise the minimum,
maximum and mean of all present prices, each rounded to 4 decimal
places. -/
theorem c10_statistics_shape :
    calculate_statistics [] = ⟨0, 0, 0⟩ ∧
    ∀ (l : List ℚ) (m M : ℚ), m ∈ l → M ∈ l →
      (∀ x ∈ l, m ≤ x) → (∀ x ∈ l, x ≤ M) →
      calculate_statistics l
        = ⟨roundTo 4 m, roundTo 4 M, roundTo 4 (l.sum / (l.length : ℚ))⟩ := by
  refine ⟨rfl, ?_⟩
  intro l m M hm hM hlb hub
  obtain ⟨a, t, rfl⟩ := List.exists_cons_of_ne_nil (List.ne_nil_of_mem hm)
  have hmin : t.foldl pyMin2 a = m :=
    le_antisymm (foldl_pyMin2_le t a m hm) (hlb _ (foldl_pyMin2_mem t a))
  have hmax : t.foldl pyMax2 a = M :=
    le_antisymm (hub _ (foldl_pyMax2_mem t a)) (le_foldl_pyMax2 t a M hM)
  rw [calculate_statistics, hmin, hmax]

/-- C10 witness: the spec's example series — min 0.05, max 0.20,
avg 0.1167 after rounding to 4 places. -/
theorem c10_statistics_shape_w :
    calculate_statistics [1/10, 2/10, 1/20] = ⟨1/20, 1/5, 1167/10000⟩ := by
  have h := c10_statistics_shape.2 [1/10, 2/10, 1/20] (1/20) (2/10)
    (by norm_num) (by norm_num)
    (by
      intro x hx
      simp only [List.mem_cons, List.not_mem_nil, or_false] at hx
      rcases hx with h | h | h <;> norm_num [h])
    (by
      intro x hx
      simp only [List.mem_cons, List.not_mem_nil, or_false] at hx
      rcases hx with h | h | h <;> norm_num [h])
  rw [h]
  have e1 : roundTo 4 ((1:ℚ)/20) = 1/20 := by
    rw [roundTo_of_lt 4 (f := 500) (by norm_num) (by norm_num)]; norm_num
  have e2 : roundTo 4 ((2:ℚ)/10) = 1/5 := by
    rw [roundTo_of_lt 4 (f := 2000) (by norm_num) (by norm_num)]; norm_num
  have e3 : roundTo 4 (([(1:ℚ)/10, 2/10, 1/20].sum) / (([(1:ℚ)/10, 2/10, 1/20].length : ℚ)))
      = 1167/10000 := by
    have : ([(1:ℚ)/10, 2/10, 1/20].sum) / (([(1:ℚ)/10, 2/10, 1/20].length : ℚ)) = 7/60 := by
      simp [List.sum_cons]; norm_num
    rw [this, roundTo_of_gt 4 (f := 1166) (by norm_num) (by norm_num) (by norm_num)]
    norm_num
  rw [e1, e2, e3]

/-- C4 (corrected): normalization divides each parsed price by 1000 and
stores the exact quotient — there is no rounding to 5 decimal places.  A
payload with a numeric price for every hour label yields exactly one entry
per label, each priced at the source value divided by 1000 exactly. -/
theorem c4_normalization_divides_by_1000 :
    ∀ (labels : List String) (v : String → ℚ),
      (∀ lab ∈ labels, lab ≠ "date" ∧ lab ≠ "units") →
      normalizeEntries (labels.map fun lab => (lab, ⟨.num (v lab), false, false⟩))
          = labels.map (fun lab => ⟨lab, v lab / 1000, false, false⟩) ∧
      (normalizeEntries (labels.map fun lab => (lab, ⟨.num (v lab), false, false⟩))).length
          = labels.length := by
  intro labels v h
  have hgood : ∀ p ∈ labels.map fun lab => ((lab, ⟨.num (v lab), false, false⟩) : String × RawInfo),
      keptItem p := by
    intro p hp
    obtain ⟨lab, hlab, rfl⟩ := List.mem_map.mp hp
    exact ⟨fun hc => by rcases hc with hc | hc <;> simp [(h lab hlab).1, (h lab hlab).2] at hc,
      by simp [parsePrice]⟩
  constructor
  · rw [normalizeEntries_all_good _ hgood, List.map_map]
    exact List.map_congr_left fun lab _ => by simp [entryOfItem, parsePrice]
  · rw [normalizeEntries_all_good _ hgood, List.map_map, List.length_map]

/-- C4 witness: a full 24-hour payload at 142.5 currency/MWh normalizes to
24 entries, each at exactly 142.5/1000 currency/kWh. -/
theorem c4_normalization_divides_by_1000_w :
    normalizeEntries (labels24.map fun lab => (lab, ⟨.num (285/2), false, false⟩))
        = labels24.map (fun lab => ⟨lab, (285/2) / 1000, false, false⟩) ∧
    (normalizeEntries (labels24.map fun lab => (lab, ⟨.num (285/2), false, false⟩))).length
        = 24 :=
  ⟨(c4_normalization_divides_by_1000 labels24 (fun _ => 285/2) (by decide)).1,
   ((c4_normalization_divides_by_1000 labels24 (fun _ => 285/2) (by decide)).2).trans rfl⟩

/-- C4 counterexample: a source price of 123.456789 currency/MWh is stored
as exactly 0.123456789, which differs from the claimed value rounded to 5
decimal places (0.12346). -/
theorem c4_normalization_divides_by_1000_cex :
    normalizeEntries [("00-01", ⟨.num (123456789/1000000), false, false⟩)]
        = [⟨"00-01", (123456789/1000000 : ℚ) / 1000, false, false⟩] ∧
    roundTo 5 ((123456789/1000000 : ℚ) / 1000) = 12346/100000 ∧
    ((123456789/1000000 : ℚ) / 1000) ≠ 12346/100000 := by
  refine ⟨rfl, ?_, by norm_num⟩
  rw [roundTo_of_gt 5 (f := 12345) (by norm_num) (by norm_num) (by norm_num)]
  norm_num

/-- C5 (corrected): normalization performs no hour-index arithmetic at
all — the raw hour label of every kept item is carried into the entry
verbatim (an entry labelled `"01-02"` keeps the string `"01-02"`; it is
not mapped to the number 0). -/
theorem c5_hour_labels_pass_through :
    (∀ items : List (String × RawInfo),
      (normalizeEntries items).map (·.hour)
        = (items.filter fun p => decide (keptItem p)).map (·.1)) ∧
    normalizeEntries [("01-02", ⟨.num 50, false, false⟩)]
      = [⟨"01-02", (50 : ℚ) / 1000, false, false⟩] :=
  ⟨normalizeEntries_hours, rfl⟩

/-- C5 counterexample: the entry built from the range label `"01-02"`
carries the label itself as its hour field — no off-by-one subtraction to
an hour index (no rendering of the number 0) happens anywhere. -/
theorem c5_hour_labels_pass_through_cex :
    (normalizeEntries [("01-02", ⟨.num 50, false, false⟩)]).map (·.hour) = ["01-02"] ∧
    ("01-02" : String) ≠ "0" ∧ ("01-02" : String) ≠ "00" := by
  refine ⟨rfl, by decide, by decide⟩

/-- C6 (confirmed): over a canonical series (strictly ascending hour
labels, the shape `/today` produces at line 125 from the unique payload
keys), the ranking `sorted(series, key=price)[:limit]` equals the first
`limit` entries of the ascending (price, hour)-lexicographic order:
ascending by price, ties broken by ascending hour, truncated. -/
theorem c6_ranked_cheapest_is_lex_take :
    ∀ (series : List HourEntry) (limit : Nat),
      series ≠ [] → 1 ≤ limit → limit ≤ 24 →
      series.Pairwise hourStrictLt →
      rankedCheapest series limit
        = (List.insertionSort lexPriceHour series).take limit := by
  intro series limit _ _ _ hp
  rw [rankedCheapest, stableSortByPrice_eq_lex hp]

/-- C6 witness: on the spec's example with `limit = 2`, the result is the
hour-1 entry followed by the hour-2 entry. -/
theorem c6_ranked_cheapest_is_lex_take_w :
    rankedCheapest exSeries4 2
      = [⟨"01", 1/20, false, false⟩, ⟨"02", 1/20, false, false⟩] := by
  have h := c6_ranked_cheapest_is_lex_take exSeries4 2 (by simp [exSeries4])
    (by norm_num) (by norm_num) (by decide)
  rw [h]
  have t1 : pyStrLt "02" "01" = false := by decide
  norm_num [exSeries4, List.insertionSort, List.orderedInsert, lexPriceHour, t1]

/-- C7 (corrected): `sorted(series, key=price)[-5:][::-1]` sorts
descending by price truncated to 5, but among equal prices the hour order
is DESCENDING (it is the reverse of the ascending stable sort), not
ascending as the claim states: the result is the first 5 entries of the
reversed (price, hour)-lexicographic order. -/
theorem c7_ranked_most_expensive_reversed_lex :
    ∀ series : List HourEntry, series ≠ [] → series.Pairwise hourStrictLt →
      rankedMostExpensive series
        = ((List.insertionSort lexPriceHour series).reverse).take 5 := by
  intro series _ hp
  simp only [rankedMostExpensive]
  rw [stableSortByPrice_eq_lex hp]
  generalize List.insertionSort lexPriceHour series = L
  rw [show L.drop (L.length - 5) = L.rtake 5 from rfl,
    List.rtake_eq_reverse_take_reverse, List.reverse_reverse]

/-- C7 witness: on the two-entry equal-price series the most-expensive
ranking lists hour 1 before hour 0. -/
theorem c7_ranked_most_expensive_reversed_lex_w :
    rankedMostExpensive exSeriesTie
      = [⟨"01", 1/10, false, false⟩, ⟨"00", 1/10, false, false⟩] := by
  have h := c7_ranked_most_expensive_reversed_lex exSeriesTie
    (by simp [exSeriesTie]) (by decide)
  rw [h]
  have t1 : pyStrLt "01" "00" = false := by decide
  norm_num [exSeriesTie, List.insertionSort, List.orderedInsert, lexPriceHour, t1]

/-- C7 counterexample: both entries carry the same price, hour `"00"`
precedes hour `"01"` in Python's string order, yet the ranking lists
`"01"` first — the tie-break among equal prices is descending hour order,
not the ascending order the claim states. -/
theorem c7_ranked_most_expensive_reversed_lex_cex :
    rankedMostExpensive exSeriesTie
        = [⟨"01", 1/10, false, false⟩, ⟨"00", 1/10, false, false⟩] ∧
    pyStrLt "00" "01" = true := by
  constructor
  · norm_num [rankedMostExpensive, exSeriesTie, List.insertionSort,
      List.orderedInsert, priceKeyLE]
  · decide

-- `/forecast` evaluation helpers.
theorem except_map_ok {ε α β : Type} (f : α → β) (x : α) :
    Except.map f (Except.ok x : Except ε α) = .ok (f x) := rfl

theorem pyMean_of_ne_nil {l : List ℚ} (h : l ≠ []) :
    pyMean l = .ok (l.sum / (l.length : ℚ)) := by
  cases l with
  | nil => exact absurd rfl h
  | cons a t => rfl

/-- On a successful fetch with at least one normalized entry, `/forecast`
returns the six-slot body with the shared `recentAvgOf` baseline. -/
theorem get_forecast_ok (zone : String) (data : RawPayload)
    (nowDate nowIso : String) (current_hour : Nat)
    (hne : normalizeEntries data.items ≠ []) :
    get_forecast zone (.ok data) nowDate nowIso current_hour
      = .ok
        { zone := zone
        , forecast_from := nowIso
        , method := "Moving average 6h"
        , predictions := (List.range 6).map
            (fun j => forecastSlot current_hour (j + 1) (recentAvgOf data))
        , disclaimer := "Predicción simple, no garantizada" } := by
  have hlen : (List.insertionSort hourKeyLE (normalizeEntries data.items)).length
      = (normalizeEntries data.items).length :=
    (List.perm_insertionSort hourKeyLE (normalizeEntries data.items)).length_eq
  have hpos : 0 < (normalizeEntries data.items).length :=
    List.length_pos.mpr hne
  rw [get_forecast]
  simp only [get_today_prices]
  set prices :=
    ((todayBody zone data nowDate).hourly_prices).map (·.price) with hprices
  have hplen : prices.length = (normalizeEntries data.items).length := by
    rw [hprices]
    show ((List.insertionSort hourKeyLE (normalizeEntries data.items)).map (·.price)).length
      = (normalizeEntries data.items).length
    rw [List.length_map, hlen]
  have havg :
      (if 6 ≤ prices.length then
        (pyMean (prices.drop (prices.length - 6))).map (roundTo 4)
      else
        (pyMean prices).map (roundTo 4)) = .ok (recentAvgOf data) := by
    have hpr : prices
        = (List.insertionSort hourKeyLE (normalizeEntries data.items)).map (·.price) := rfl
    by_cases h6 : 6 ≤ prices.length
    · have hd : (prices.drop (prices.length - 6)).length = 6 := by
        rw [List.length_drop]; omega
      have hdne : prices.drop (prices.length - 6) ≠ [] := by
        intro hnil; rw [hnil] at hd; simp at hd
      rw [if_pos h6, pyMean_of_ne_nil hdne, except_map_ok, recentAvgOf]
      rw [← hpr, if_pos h6]
    · have hne' : prices ≠ [] := by
        intro hnil
        rw [hnil] at hplen
        simp at hplen
        omega
      rw [if_neg h6, pyMean_of_ne_nil hne', except_map_ok, recentAvgOf]
      rw [← hpr, if_neg h6]
  rw [havg]

/-- C9 (corrected): on a non-empty series `/forecast` emits exactly six
predictions, all equal to the single baseline `recentAvgOf` — the mean of
the last six prices in hour order (of all prices when fewer than six
exist) ROUNDED TO 4 DECIMAL PLACES — and the i-th slot is labelled with
target hour `(current_hour + i) % 24`. -/
theorem c9_forecast_six_flat_slots :
    ∀ (zone : String) (data : RawPayload) (nowDate nowIso : String) (current_hour : Nat),
      normalizeEntries data.items ≠ [] →
      ∃ body,
        get_forecast zone (.ok data) nowDate nowIso current_hour = .ok body ∧
        body.predictions.length = 6 ∧
        (∀ p ∈ body.predictions, p.predicted_price = recentAvgOf data) ∧
        body.predictions.map (·.hour)
          = (List.range 6).map (fun j =>
              pad2 ((current_hour + (j + 1)) % 24) ++ ":00-"
                ++ pad2 ((current_hour + (j + 1)) % 24 + 1) ++ ":00") := by
  intro zone data nowDate nowIso current_hour hne
  refine ⟨_, get_forecast_ok zone data nowDate nowIso current_hour hne, ?_, ?_, ?_⟩
  · simp
  · intro p hp
    obtain ⟨j, _, rfl⟩ := List.mem_map.mp hp
    rfl
  · rw [List.map_map]
    rfl

/-- C9 witness: the spec's example — three hours at 0.10/0.20/0.30, now
hour 0 — yields six identical predictions of 0.20, labelled hours 1-6. -/
theorem c9_forecast_six_flat_slots_w :
    ∃ body, get_forecast "PCB" (.ok payload3) "d" "iso" 0 = .ok body
      ∧ body.predictions.length = 6
      ∧ (∀ p ∈ body.predictions, p.predicted_price = 1/5)
      ∧ body.predictions.map (·.hour)
          = ["01:00-02:00", "02:00-03:00", "03:00-04:00",
             "04:00-05:00", "05:00-06:00", "06:00-07:00"] := by
  obtain ⟨body, heq, hlen, hval, hmap⟩ :=
    c9_forecast_six_flat_slots "PCB" payload3 "d" "iso" 0 (by decide)
  have h1 : recentAvgOf payload3
      = roundTo 4 ((100/1000 + (200/1000 + (300/1000 + 0))) / ((3 : ℕ) : ℚ)) := rfl
  have h2 : ((100 : ℚ)/1000 + (200/1000 + (300/1000 + 0))) / ((3 : ℕ) : ℚ) = 1/5 := by
    push_cast
    norm_num
  have havg : recentAvgOf payload3 = 1/5 := by
    rw [h1, h2, roundTo_of_lt 4 (f := 2000) (by norm_num) (by norm_num)]
    norm_num
  refine ⟨body, heq, hlen, fun p hp => (hval p hp).trans havg, hmap.trans (by decide)⟩

/-- C9 counterexample: with prices 0.10, 0.20, 0.40 the predictions all
equal 0.2333 — the 4-place rounding of the mean — and not the arithmetic
mean 0.2333... itself, as the claim states. -/
theorem c9_forecast_six_flat_slots_cex :
    get_forecast "PCB" (.ok payload3c) "d" "iso" 0
        = .ok ⟨"PCB", "iso", "Moving average 6h",
            (List.range 6).map (fun j => forecastSlot 0 (j + 1) (2333/10000)),
            "Predicción simple, no garantizada"⟩ ∧
    ((2333/10000 : ℚ) ≠ (100/1000 + 200/1000 + 400/1000) / 3) := by
  have h1 : recentAvgOf payload3c
      = roundTo 4 ((100/1000 + (200/1000 + (400/1000 + 0))) / ((3 : ℕ) : ℚ)) := rfl
  have h2 : ((100 : ℚ)/1000 + (200/1000 + (400/1000 + 0))) / ((3 : ℕ) : ℚ) = 7/30 := by
    push_cast
    norm_num
  have havg : recentAvgOf payload3c = 2333/10000 := by
    rw [h1, h2, roundTo_of_lt 4 (f := 2333) (by norm_num) (by norm_num)]
    norm_num
  constructor
  · rw [get_forecast_ok _ _ _ _ _ (by decide)]
    simp only [havg]
  · norm_num
